import Mathlib

/-!
Shallow embedding of a layered user CRUD web service
(router → service → mapper → repository → database).

The data model and operations below are translated from the Python
source files: `dbmodels/user_model.py`, `apimodels/api_user_response.py`,
`mapper/user_mapper.py`, `repository/base_repository.py`,
`repository/user_repository.py`, `service/user_service.py`,
`routers/user_router.py` and `main.py`.  Class-level mutable state
(the per-class `_engine` attributes and the SQLite table) is made
explicit as a `RepoState` record threaded through the operations;
Python exceptions become `Except AppError`.
-/

set_option autoImplicit false

/-- A SQLAlchemy `Engine`, identified by its connection string
(`create_engine(DATABASE_URL, ...)` in `main.py`). -/
structure Engine where
  url : String
deriving Repr, DecidableEq

/-- Stored user entity (`dbmodels/user_model.py`, class `DbUser`):
`id: int | None = Field(default=None, primary_key=True)`, `name: str`,
`email: str`.  The identifier is nullable until storage assigns it. -/
structure DbUser where
  id : Option Int
  name : String
  email : String
deriving Repr, DecidableEq

/-- Wire-outbound user (`apimodels/api_user_response.py`, class
`APIUserResponse`): `id: int`, `name: str`, `email: EmailStr`.
Values of this type only exist after pydantic validation succeeded,
see `mkAPIUserResponse`. -/
structure APIUserResponse where
  id : Int
  name : String
  email : String
deriving Repr, DecidableEq

/-- Modelled from the spec: the wire-inbound user shape
(`apimodels/api_user.py` is imported by router, mapper and service but
the file itself is absent from the sources given).  Per the spec's data
model it carries `name` (text) and `email` (text, validated as email
syntax at the boundary) and no identifier. -/
structure APIUser where
  name : String
  email : String
deriving Repr, DecidableEq

/-- Helper for `isValidEmail`: split a character list at the first
`@`, returning the part before and the part after it. -/
def splitAtSign : List Char → Option (List Char × List Char)
  | [] => none
  | c :: rest =>
    if c = '@' then some ([], rest)
    else
      match splitAtSign rest with
      | none => none
      | some (l, d) => some (c :: l, d)

/-- Modelled from the spec: pydantic `EmailStr` syntax validation
(simplified).  A string is accepted when it has exactly one `@` with a
nonempty local part and a nonempty domain that contains a dot not at
either end.  The claims settled below depend only on a valid address
such as `ada@example.com` being accepted and a string such as
`not-an-email` being rejected, not on the exact accepted language. -/
def isValidEmail (s : String) : Bool :=
  match splitAtSign s.toList with
  | none => false
  | some (l, d) =>
    !l.isEmpty && !d.isEmpty && !d.contains '@' && d.contains '.' &&
      d.head? ≠ some '.' && d.getLast? ≠ some '.'

/-- Errors surfaced by the embedded operations.  `runtimeError` embeds
Python `RuntimeError` (the use-before-initialization guard),
`validationError` embeds pydantic `ValidationError`, and
`storageError` stands for driver/storage failures (none of the
embedded operations on this single table produce one, but the
constructor is kept so that statements can distinguish the kinds). -/
inductive AppError where
  | runtimeError (msg : String)
  | validationError (msg : String)
  | storageError (msg : String)
deriving Repr, DecidableEq

/-- Constructing an `APIUserResponse` runs pydantic field validation:
`id: int` rejects `None`, `email: EmailStr` rejects text that is not
valid email syntax (`apimodels/api_user_response.py`). -/
def mkAPIUserResponse (id : Option Int) (name email : String) :
    Except AppError APIUserResponse :=
  match id with
  | none => .error (.validationError "none is not an allowed value")
  | some i =>
    if isValidEmail email then .ok { id := i, name := name, email := email }
    else .error (.validationError "value is not a valid email address")

/-- The process-wide mutable state: the two class-level `_engine`
attributes (`BaseRepository._engine` and `UserRepository._engine` are
distinct attributes because `UserRepository` does not inherit from
`BaseRepository`), plus the SQLite `DbUser` table contents and the next
primary key the storage will assign (modelling SQLite integer primary
key auto-assignment, starting at 1). -/
structure RepoState where
  baseEngine : Option Engine
  userEngine : Option Engine
  rows : List DbUser
  nextId : Int
deriving Repr, DecidableEq

/-- The guard message raised by `BaseRepository._get_session`. -/
def baseEngineNotSetMsg : String :=
  "Database engine niet ingesteld. Roep BaseRepository.set_engine() eerst aan."

/-- The guard message raised by `UserRepository._get_session`. -/
def userEngineNotSetMsg : String :=
  "Database engine niet ingesteld. Roep UserRepository.set_engine() eerst aan."

namespace BaseRepository

/-- `BaseRepository.set_engine` (`repository/base_repository.py`):
`cls._engine = engine` on class `BaseRepository`. -/
def set_engine (engine : Engine) (s : RepoState) : RepoState :=
  { s with baseEngine := some engine }

/-- `BaseRepository._get_session`: raises `RuntimeError` when
`cls._engine is None`, otherwise returns a session bound to the
engine (the session is identified with its engine here). -/
def _get_session (s : RepoState) : Except AppError Engine :=
  match s.baseEngine with
  | none => .error (.runtimeError baseEngineNotSetMsg)
  | some e => .ok e

end BaseRepository

namespace UserRepository

/-- `UserRepository.set_engine` (`repository/user_repository.py`):
`cls._engine = engine` on class `UserRepository`, a class attribute
distinct from `BaseRepository._engine`. -/
def set_engine (engine : Engine) (s : RepoState) : RepoState :=
  { s with userEngine := some engine }

/-- `UserRepository._get_session`: raises `RuntimeError` when
`cls._engine is None` (checking `UserRepository._engine`, not
`BaseRepository._engine`). -/
def _get_session (s : RepoState) : Except AppError Engine :=
  match s.userEngine with
  | none => .error (.runtimeError userEngineNotSetMsg)
  | some e => .ok e

/-- `UserRepository.create`: opens a session, `session.add(user)`,
`session.commit()` (storage assigns the primary key when the record
carries none), `session.refresh(user)` and returns the now-identified
record together with the updated storage. -/
def create (user : DbUser) (s : RepoState) :
    Except AppError (DbUser × RepoState) := do
  let _session ← _get_session s
  let saved : DbUser :=
    match user.id with
    | none => { user with id := some s.nextId }
    | some _ => user
  let s' : RepoState :=
    { s with
      rows := s.rows ++ [saved]
      nextId := if user.id = none then s.nextId + 1 else s.nextId }
  return (saved, s')

/-- Modelled from the spec: `UserRepository.get_all_users` is called by
`UserService.get_all_users` but absent from the sources given.  Per the
spec, `listAll()` opens a session and returns all rows in
storage-defined order; empty storage yields an empty sequence. -/
def get_all_users (s : RepoState) : Except AppError (List DbUser) := do
  let _session ← _get_session s
  return s.rows

end UserRepository

namespace UserMapper

/-- `UserMapper.api_user_to_user` (`mapper/user_mapper.py`):
`DbUser(name=api_user.name, email=api_user.email)` — the identifier is
left at its default `None`. -/
def api_user_to_user (api_user : APIUser) : DbUser :=
  { id := none, name := api_user.name, email := api_user.email }

/-- `UserMapper.user_to_api_user_response` (`mapper/user_mapper.py`):
`APIUserResponse(id=user.id, name=user.name, email=user.email)` —
constructing the pydantic model validates the fields, so this can fail
(embedded as `Except`). -/
def user_to_api_user_response (user : DbUser) :
    Except AppError APIUserResponse :=
  mkAPIUserResponse user.id user.name user.email

end UserMapper

namespace UserService

/-- `UserService.create_user` (`service/user_service.py`): maps the
inbound payload to a stored record, inserts it through the repository
and maps the persisted record to the outbound representation. -/
def create_user (api_user : APIUser) (s : RepoState) :
    Except AppError (APIUserResponse × RepoState) := do
  let db_user := UserMapper.api_user_to_user api_user
  let (saved_user, s') ← UserRepository.create db_user s
  let resp ← UserMapper.user_to_api_user_response saved_user
  return (resp, s')

/-- The list comprehension
`[UserMapper.user_to_api_user_response(user) for user in users]`:
maps each stored user in order, propagating the first failure. -/
def mapOutbound : List DbUser → Except AppError (List APIUserResponse)
  | [] => .ok []
  | u :: rest => do
    let r ← UserMapper.user_to_api_user_response u
    let rs ← mapOutbound rest
    return r :: rs

/-- `UserService.get_all_users` (`service/user_service.py`): fetches
all stored users from the repository and maps each to the outbound
representation, preserving order. -/
def get_all_users (s : RepoState) :
    Except AppError (List APIUserResponse) := do
  let users ← UserRepository.get_all_users s
  mapOutbound users

end UserService

namespace UserRouter

/-- `GET /hi` (`routers/user_router.py`): static greeting. -/
def root : String := "Hello World"

/-- `POST /create-user` (`routers/user_router.py`): the handler body is
exactly `UserService.create_user(api_user)` — it invokes the service
but has no `return` statement and no `status_code` argument, so on
success FastAPI serializes Python `None` as the response body with the
default status 200.  The result is (status, body, new state). -/
def create_user (api_user : APIUser) (s : RepoState) :
    Except AppError (Nat × Option APIUserResponse × RepoState) := do
  let (_resp, s') ← UserService.create_user api_user s
  return (200, none, s')

/-- FastAPI `response_model=List[APIUserResponse]` output validation on
one record: each serialized record must satisfy the response schema
(`EmailStr` among it). -/
def validateResponseModel (r : APIUserResponse) :
    Except AppError APIUserResponse :=
  if isValidEmail r.email then .ok r
  else .error (.validationError "value is not a valid email address")

/-- Response-model validation of the whole list, in order. -/
def validateAll : List APIUserResponse → Except AppError (List APIUserResponse)
  | [] => .ok []
  | r :: rest => do
    let v ← validateResponseModel r
    let vs ← validateAll rest
    return v :: vs

/-- `GET /users` (`routers/user_router.py`): invokes the service list
use case; the declared `response_model=List[APIUserResponse]` validates
the outgoing records before they are sent. -/
def get_users (s : RepoState) : Except AppError (List APIUserResponse) := do
  let rs ← UserService.get_all_users s
  validateAll rs

end UserRouter

/-- The engine built in `main.py`:
`create_engine("sqlite:///./app.db", ...)`. -/
def mainEngine : Engine := { url := "sqlite:///./app.db" }

/-- Process state before `main.py` runs: no engine bound anywhere,
empty storage, first primary key to assign is 1. -/
def initialState : RepoState :=
  { baseEngine := none, userEngine := none, rows := [], nextId := 1 }

/-- Process state right after the startup binding in `main.py`
(line 13): `BaseRepository.set_engine(engine)` — and nothing else
touches any `_engine` attribute at startup. -/
def startupState : RepoState :=
  BaseRepository.set_engine mainEngine initialState

/-- Reachability invariant of the storage: the next id to assign is
positive and strictly greater than every id already present in the
table (holds of `initialState` and is preserved by `create`). -/
def GoodState (s : RepoState) : Prop :=
  0 < s.nextId ∧ ∀ r ∈ s.rows, ∀ i : Int, r.id = some i → i < s.nextId

/-- The state the spec intends after startup: the connection source
bound for the user repository as well (what `main.py` would reach if
`UserRepository` shared `BaseRepository`'s engine attribute), with
empty storage. -/
def boundState : RepoState :=
  { baseEngine := some mainEngine, userEngine := some mainEngine,
    rows := [], nextId := 1 }

/-- A state whose storage holds one row that violates the outbound
schema (identifier unset, email not valid email syntax). -/
def badRowState : RepoState :=
  { baseEngine := some mainEngine, userEngine := some mainEngine,
    rows := [{ id := none, name := "Mallory", email := "nope" }],
    nextId := 1 }

/-- Successful list-comprehension mapping: the output has the same
length as the input and the i-th output is the successful image of the
i-th input. -/
theorem mapOutbound_ok_pointwise (l : List DbUser) (out : List APIUserResponse)
    (h : UserService.mapOutbound l = .ok out) :
    out.length = l.length ∧
      ∀ i (hi : i < l.length) (ho : i < out.length),
        UserMapper.user_to_api_user_response (l.get ⟨i, hi⟩) =
          .ok (out.get ⟨i, ho⟩) := by
  induction l generalizing out with
  | nil =>
    simp only [UserService.mapOutbound] at h
    cases h
    exact ⟨rfl, fun i hi ho => absurd hi (Nat.not_lt_zero i)⟩
  | cons a rest ih =>
    simp only [UserService.mapOutbound] at h
    cases hma : UserMapper.user_to_api_user_response a with
    | error e => rw [hma] at h; exact Except.noConfusion h
    | ok r =>
      rw [hma] at h
      cases hrest : UserService.mapOutbound rest with
      | error e =>
        rw [hrest] at h
        exact Except.noConfusion h
      | ok rs =>
        rw [hrest] at h
        simp only [bind, Except.bind, pure, Except.pure] at h
        cases h
        obtain ⟨hlen, hidx⟩ := ih rs hrest
        refine ⟨by simp [hlen], ?_⟩
        intro i hi ho
        cases i with
        | zero => simpa using hma
        | succ j =>
          have hj : j < rest.length := Nat.lt_of_succ_lt_succ hi
          have hjo : j < rs.length := Nat.lt_of_succ_lt_succ ho
          simpa using hidx j hj hjo

/-- A successful list-comprehension mapping means every input mapped
successfully. -/
theorem mapOutbound_ok_mem (l : List DbUser) (out : List APIUserResponse)
    (h : UserService.mapOutbound l = .ok out) :
    ∀ du ∈ l, ∃ r, UserMapper.user_to_api_user_response du = .ok r := by
  induction l generalizing out with
  | nil => intro du hdu; cases hdu
  | cons a rest ih =>
    intro du hdu
    simp only [UserService.mapOutbound] at h
    cases hma : UserMapper.user_to_api_user_response a with
    | error e => rw [hma] at h; exact Except.noConfusion h
    | ok r =>
      rw [hma] at h
      cases hrest : UserService.mapOutbound rest with
      | error e => rw [hrest] at h; exact Except.noConfusion h
      | ok rs =>
        rcases List.mem_cons.mp hdu with hdu | hdu
        · exact ⟨r, hdu ▸ hma⟩
        · exact ih rs hrest du hdu

/-- Successful response-model validation implies every returned record
has a valid email. -/
theorem validateAll_ok_valid (l out : List APIUserResponse)
    (h : UserRouter.validateAll l = .ok out) :
    ∀ r ∈ out, isValidEmail r.email = true := by
  induction l generalizing out with
  | nil =>
    simp only [UserRouter.validateAll] at h
    cases h
    intro r hr
    cases hr
  | cons a rest ih =>
    simp only [UserRouter.validateAll, UserRouter.validateResponseModel] at h
    by_cases hv : isValidEmail a.email = true
    · rw [if_pos hv] at h
      cases hrest : UserRouter.validateAll rest with
      | error e => rw [hrest] at h; exact Except.noConfusion h
      | ok vs =>
        rw [hrest] at h
        simp only [bind, Except.bind, pure, Except.pure] at h
        cases h
        intro r hr
        rcases List.mem_cons.mp hr with hr | hr
        · exact hr ▸ hv
        · exact ih vs hrest r hr
    · rw [if_neg hv] at h
      exact Except.noConfusion h

/-- C1: for every storage state (with the user repository's engine
bound, which opening a session requires), the list-users use case
`UserService.get_all_users` (serving `GET /user/users`) fetches all
stored users and maps each to the wire-outbound representation
preserving the repository-returned order; on empty storage it returns
an empty sequence and no error. -/
theorem get_all_users_maps_rows_in_order (s : RepoState) (e : Engine)
    (hE : s.userEngine = some e) :
    (s.rows = [] → UserService.get_all_users s = .ok []) ∧
    ∀ out, UserService.get_all_users s = .ok out →
      out.length = s.rows.length ∧
        ∀ i (hi : i < s.rows.length) (ho : i < out.length),
          UserMapper.user_to_api_user_response (s.rows.get ⟨i, hi⟩) =
            .ok (out.get ⟨i, ho⟩) := by
  have hsvc : UserService.get_all_users s = UserService.mapOutbound s.rows := by
    simp [UserService.get_all_users, UserRepository.get_all_users,
      UserRepository._get_session, hE, bind, Except.bind, pure, Except.pure]
  constructor
  · intro hrows
    rw [hsvc, hrows]
    rfl
  · intro out hout
    rw [hsvc] at hout
    exact mapOutbound_ok_pointwise s.rows out hout

/-- C1 witness: on the concretely bound state with empty storage, the
list-users use case returns the empty sequence. -/
theorem get_all_users_maps_rows_in_order_witness :
    UserService.get_all_users boundState = .ok [] :=
  (get_all_users_maps_rows_in_order boundState mainEngine rfl).1 rfl

/-- C2: evidence of the code bug.  For the valid wire-inbound body
`{name := "Ada", email := "ada@example.com"}` in the bound state, the
`POST /create-user` handler does invoke the service create use case
(the row is persisted: see the returned state), but its body has no
return statement and no status-code override, so the response is the
default status 200 with an empty (`none`) body — not the outbound
representation of the newly persisted user with a created status. -/
theorem create_user_route_returns_no_body :
    UserRouter.create_user { name := "Ada", email := "ada@example.com" }
        boundState =
      .ok (200, none,
        { baseEngine := some mainEngine, userEngine := some mainEngine,
          rows := [{ id := some 1, name := "Ada", email := "ada@example.com" }],
          nextId := 2 }) := rfl

/-- C3: evidence of the code bug.  `main.py` performs the startup
binding `BaseRepository.set_engine(engine)` only, but `UserRepository`
does not inherit from `BaseRepository` and guards its own `_engine`
attribute, so in the state reached by `main.py`'s startup a create
still fails with the uninitialized-dependency `RuntimeError`. -/
theorem create_fails_after_main_startup_binding :
    UserRepository.create
        { id := none, name := "Ada", email := "ada@example.com" }
        startupState =
      .error (.runtimeError userEngineNotSetMsg) := rfl

/-- C4: for every valid inbound payload (email in valid syntax, as the
boundary guarantees), in any reachable storage state with the user
repository's engine bound, `createUser` succeeds and returns an
outbound record whose name and email equal the input's and whose id is
the freshly assigned `s.nextId`: a positive integer carried by no
previously stored row (every id returned by an earlier `createUser`
call is the id of a row it appended to storage). -/
theorem create_user_returns_fresh_positive_id (u : APIUser) (s : RepoState)
    (e : Engine) (hE : s.userEngine = some e) (hG : GoodState s)
    (hv : isValidEmail u.email = true) :
    ∃ s', UserService.create_user u s =
        .ok ({ id := s.nextId, name := u.name, email := u.email }, s') ∧
      0 < s.nextId ∧ ∀ r ∈ s.rows, r.id ≠ some s.nextId := by
  refine ⟨{ s with
      rows := s.rows ++ [{ id := some s.nextId, name := u.name, email := u.email }],
      nextId := s.nextId + 1 }, ?_, hG.1, ?_⟩
  · simp [UserService.create_user, UserMapper.api_user_to_user,
      UserRepository.create, UserRepository._get_session, hE,
      UserMapper.user_to_api_user_response, mkAPIUserResponse, hv,
      bind, Except.bind, pure, Except.pure]
  · intro r hr heq
    exact absurd (hG.2 r hr s.nextId heq) (lt_irrefl s.nextId)

/-- C4 witness: in the bound empty state, creating Ada returns the
outbound record with the fresh positive id 1. -/
theorem create_user_returns_fresh_positive_id_witness :
    ∃ s', UserService.create_user
        { name := "Ada", email := "ada@example.com" } boundState =
        .ok ({ id := boundState.nextId, name := "Ada",
               email := "ada@example.com" }, s') ∧
      0 < boundState.nextId ∧
      ∀ r ∈ boundState.rows, r.id ≠ some boundState.nextId :=
  create_user_returns_fresh_positive_id
    { name := "Ada", email := "ada@example.com" } boundState mainEngine rfl
    ⟨by decide, by simp [boundState]⟩ (by decide)

/-- C5: every user-repository operation invoked before the connection
source has been bound (engine still unset) fails with the
uninitialized-dependency `RuntimeError` — and in particular never with
a storage-level error. -/
theorem repository_ops_before_binding_fail_with_init_error (u : DbUser)
    (s : RepoState) (h : s.userEngine = none) :
    UserRepository.create u s = .error (.runtimeError userEngineNotSetMsg) ∧
    UserRepository.get_all_users s =
      .error (.runtimeError userEngineNotSetMsg) ∧
    ∀ m, UserRepository.create u s ≠ .error (.storageError m) ∧
      UserRepository.get_all_users s ≠ .error (.storageError m) := by
  have h1 : UserRepository.create u s =
      .error (.runtimeError userEngineNotSetMsg) := by
    simp [UserRepository.create, UserRepository._get_session, h,
      bind, Except.bind]
  have h2 : UserRepository.get_all_users s =
      .error (.runtimeError userEngineNotSetMsg) := by
    simp [UserRepository.get_all_users, UserRepository._get_session, h,
      bind, Except.bind]
  refine ⟨h1, h2, fun m => ⟨?_, ?_⟩⟩
  · rw [h1]
    simp
  · rw [h2]
    simp

/-- C5 witness: in the initial unbound state, create and list both
fail with the initialization error and with no storage error. -/
theorem repository_ops_before_binding_fail_witness :
    UserRepository.create
        { id := none, name := "Ada", email := "ada@example.com" }
        initialState =
      .error (.runtimeError userEngineNotSetMsg) ∧
    UserRepository.get_all_users initialState =
      .error (.runtimeError userEngineNotSetMsg) ∧
    ∀ m, UserRepository.create
        { id := none, name := "Ada", email := "ada@example.com" }
        initialState ≠ .error (.storageError m) ∧
      UserRepository.get_all_users initialState ≠
        .error (.storageError m) :=
  repository_ops_before_binding_fail_with_init_error
    { id := none, name := "Ada", email := "ada@example.com" }
    initialState rfl

/-- C6 counterexample: the direct composition
`user_to_api_user_response ∘ api_user_to_user` yields no outbound
record at the valid inbound user Ada — the stored record still carries
`id = None`, which pydantic's `id: int` field rejects. -/
theorem roundtrip_ada_yields_no_record :
    ¬ ∃ resp : APIUserResponse,
        UserMapper.user_to_api_user_response
          (UserMapper.api_user_to_user
            { name := "Ada", email := "ada@example.com" }) = .ok resp ∧
        resp.name = "Ada" ∧ resp.email = "ada@example.com" := by
  rintro ⟨resp, hr, -, -⟩
  have h : UserMapper.user_to_api_user_response
      (UserMapper.api_user_to_user
        { name := "Ada", email := "ada@example.com" }) =
      .error (.validationError "none is not an allowed value") := rfl
  rw [h] at hr
  exact Except.noConfusion hr

/-- C6 amended: for every wire-inbound user whose email is valid email
syntax, mapping inbound → stored and then assigning the storage
identifier before the stored → outbound mapping yields an outbound
record preserving name and email exactly; the direct composition
without an assigned identifier fails pydantic validation. -/
theorem roundtrip_with_assigned_id_preserves_fields (u : APIUser) (i : Int)
    (hv : isValidEmail u.email = true) :
    UserMapper.user_to_api_user_response
        { UserMapper.api_user_to_user u with id := some i } =
      .ok { id := i, name := u.name, email := u.email } := by
  simp [UserMapper.user_to_api_user_response, UserMapper.api_user_to_user,
    mkAPIUserResponse, hv]

/-- C6 amended witness: the round trip through Ada with identifier 1
assigned in between preserves name and email. -/
theorem roundtrip_with_assigned_id_witness :
    UserMapper.user_to_api_user_response
        { UserMapper.api_user_to_user
            { name := "Ada", email := "ada@example.com" } with id := some 1 } =
      .ok { id := 1, name := "Ada", email := "ada@example.com" } :=
  roundtrip_with_assigned_id_preserves_fields
    { name := "Ada", email := "ada@example.com" } 1 (by decide)

/-- C7 counterexample: `user_to_api_user_response` is not total — on a
stored user whose identifier is still unset it fails pydantic
validation instead of succeeding, even with a well-formed email. -/
theorem mapper_fails_on_unset_identifier :
    ¬ ∃ resp : APIUserResponse,
        UserMapper.user_to_api_user_response
          { id := none, name := "Bob", email := "bob@mail.org" } =
          .ok resp := by
  rintro ⟨resp, hr⟩
  have h : UserMapper.user_to_api_user_response
      { id := none, name := "Bob", email := "bob@mail.org" } =
      .error (.validationError "none is not an allowed value") := rfl
  rw [h] at hr
  exact Except.noConfusion hr

/-- C7 amended: the outbound mapping is a pure function of its
argument (no state appears in its type) and, for every stored user
whose identifier is set and whose email text is valid email syntax, it
succeeds and copies id, name and email verbatim; it fails pydantic
validation when the identifier is unset or the email text is not valid
email syntax. -/
theorem mapper_copies_fields_when_valid (user : DbUser) (i : Int)
    (hi : user.id = some i) (hv : isValidEmail user.email = true) :
    UserMapper.user_to_api_user_response user =
      .ok { id := i, name := user.name, email := user.email } := by
  simp [UserMapper.user_to_api_user_response, mkAPIUserResponse, hi, hv]

/-- C7 amended witness: the mapper copies the fields of a concrete
identified stored user verbatim. -/
theorem mapper_copies_fields_witness :
    UserMapper.user_to_api_user_response
        { id := some 7, name := "Eve", email := "eve@mail.org" } =
      .ok { id := 7, name := "Eve", email := "eve@mail.org" } :=
  mapper_copies_fields_when_valid
    { id := some 7, name := "Eve", email := "eve@mail.org" } 7 rfl (by decide)

/-- C8: the inbound mapping produces a stored user whose identifier is
unset, so the record `UserService.create_user` hands to the
repository's insert (which is exactly `api_user_to_user api_user`)
carries no caller-chosen id — the identifier is assigned only by
storage. -/
theorem inbound_mapping_leaves_id_unset (api_user : APIUser) :
    (UserMapper.api_user_to_user api_user).id = none := rfl

/-- C9: `BaseRepository` and `UserRepository` hold distinct
class-level engine state: `BaseRepository.set_engine` changes only
`BaseRepository._engine` and leaves `UserRepository._engine` unchanged,
and conversely, so binding one class never binds the other. -/
theorem set_engine_binds_only_own_class (e : Engine) (s : RepoState) :
    (BaseRepository.set_engine e s).userEngine = s.userEngine ∧
    (BaseRepository.set_engine e s).baseEngine = some e ∧
    (UserRepository.set_engine e s).baseEngine = s.baseEngine ∧
    (UserRepository.set_engine e s).userEngine = some e :=
  ⟨rfl, rfl, rfl, rfl⟩

/-- C10: the `GET /users` endpoint validates its output against the
outbound schema: every record of a successful response has a valid
email (and an integer id, by the `APIUserResponse` type itself), and a
stored row whose identifier is unset or whose email text is not valid
email syntax makes the request fail rather than be returned. -/
theorem get_users_output_validated (s : RepoState) :
    (∀ out, UserRouter.get_users s = .ok out →
      ∀ r ∈ out, isValidEmail r.email = true) ∧
    (∀ du ∈ s.rows, (du.id = none ∨ isValidEmail du.email = false) →
      ∀ out, UserRouter.get_users s ≠ .ok out) := by
  constructor
  · intro out hout
    cases hsvc : UserService.get_all_users s with
    | error e =>
      rw [UserRouter.get_users, hsvc] at hout
      exact Except.noConfusion hout
    | ok rs =>
      rw [UserRouter.get_users, hsvc] at hout
      exact validateAll_ok_valid rs out hout
  · intro du hdu hbad out hout
    cases hEng : s.userEngine with
    | none =>
      have hsvc : UserService.get_all_users s =
          .error (.runtimeError userEngineNotSetMsg) := by
        simp [UserService.get_all_users, UserRepository.get_all_users,
          UserRepository._get_session, hEng, bind, Except.bind]
      rw [UserRouter.get_users, hsvc] at hout
      exact Except.noConfusion hout
    | some e =>
      have hsvc : UserService.get_all_users s =
          UserService.mapOutbound s.rows := by
        simp [UserService.get_all_users, UserRepository.get_all_users,
          UserRepository._get_session, hEng, bind, Except.bind, pure,
          Except.pure]
      rw [UserRouter.get_users, hsvc] at hout
      cases hmap : UserService.mapOutbound s.rows with
      | error e2 =>
        rw [hmap] at hout
        exact Except.noConfusion hout
      | ok rs =>
        obtain ⟨r, hr⟩ := mapOutbound_ok_mem s.rows rs hmap du hdu
        rcases hbad with hid | hem
        · simp [UserMapper.user_to_api_user_response, mkAPIUserResponse,
            hid] at hr
        · cases hdid : du.id with
          | none =>
            simp [UserMapper.user_to_api_user_response, mkAPIUserResponse,
              hdid] at hr
          | some i =>
            simp [UserMapper.user_to_api_user_response, mkAPIUserResponse,
              hdid, hem] at hr

/-- C10 witness: the request on the concrete bad-row state (identifier
unset, email not valid syntax) fails rather than return records. -/
theorem get_users_output_validated_witness :
    UserRouter.get_users badRowState ≠ .ok [] :=
  (get_users_output_validated badRowState).2
    { id := none, name := "Mallory", email := "nope" }
    (by simp [badRowState]) (Or.inl rfl) []
